import Mathlib

/-!
A shallow embedding of the VNExpress crawler pipeline (`src/main.py`):
the seen-URL store (`DatabaseManager`), the listing discoverer and article
processor (`VNExpressCrawler`), the summarizer with cache and sentence-count
validation gate (`GroqSummarizer`), the publisher (`TelegramPoster.post_update`)
and the cycle orchestrator (`process_articles`).

External I/O (HTTP fetches, the generation service, the Telegram send) is
modelled by oracles supplied in an `Env`; exceptions in the Python code are
modelled with `Except`/`Option`, and Python string truthiness as `≠ ""`.
-/

namespace VNExpress

/-- A row of the `articles` sqlite table created by `DatabaseManager.create_table`. -/
structure DbRow where
  url : String
  title : String
  category : String
  published_date : String
  crawled_date : String
  summary : String
deriving Repr, DecidableEq

/-- The articles store: the rows of the `articles` table. -/
abbrev Store := List DbRow

/-- Embeds `DatabaseManager.is_article_crawled`: `SELECT url FROM articles
WHERE url = ?` followed by a not-None check on `fetchone()`. -/
def is_article_crawled (db : Store) (url : String) : Bool :=
  db.any (fun r => r.url == url)

/-- The dict built by `VNExpressCrawler.process_article`. -/
structure Article where
  title : String
  content : String
  url : String
  category : String
  published_date : String
deriving Repr, DecidableEq

/-- Embeds `DatabaseManager.insert_article`: `INSERT OR REPLACE` keyed on
the `url` primary key, with `crawled_date` stamped at insertion time. -/
def insert_article (db : Store) (a : Article) (crawled_date summary : String) : Store :=
  { url := a.url, title := a.title, category := a.category,
    published_date := a.published_date, crawled_date := crawled_date,
    summary := summary } :: db.filter (fun r => r.url != a.url)

/-- The in-memory `GroqSummarizer.cache` dict (content text to summary).
`summarize` only writes a key that is absent, so a prepend-on-write
association list has the same lookup behaviour as the Python dict. -/
abbrev Cache := List (String × String)

/-- Lookup in the summary cache (`if text in self.cache: return self.cache[text]`). -/
def cacheLookup : Cache → String → Option String
  | [], _ => none
  | (k, v) :: rest, text => if k == text then some v else cacheLookup rest text

/-- The number of dot characters in a character list. -/
def dotCount : List Char → Nat
  | [] => 0
  | c :: rest => (if c = '.' then 1 else 0) + dotCount rest

/-- Python sentence counting, `len(summary.split("."))`: splitting on the
single dot character yields exactly one part more than there are dot
occurrences. -/
def sentenceParts (s : String) : Nat := dotCount s.data + 1

/-- Python `str.strip()`: drop whitespace from both ends. -/
def pyStrip (s : String) : String :=
  String.mk (((s.data.dropWhile Char.isWhitespace).reverse.dropWhile
    Char.isWhitespace).reverse)

/-- Result of one `GroqSummarizer.summarize` call: the returned string, the
cache afterwards, and how many generation-service calls were consumed. -/
structure SumResult where
  summary : String
  cache : Cache
  calls : Nat
deriving Repr, DecidableEq

/-- The retry loop inside `GroqSummarizer.summarize`, with the generation
service stubbed by the list of its successive responses.  Each consumed
response is stripped; a response whose split on "." has fewer than 4 parts
is rejected and the call retried (`return await self.summarize(text)`, which
misses the cache again and issues the next service call).  An accepted
summary is written to the cache.  An exhausted response list models the
service raising, which the `except` branch converts to `""` with no cache
write. -/
def summarizeLoop (cache : Cache) (text : String) : List String → Nat → SumResult
  | [], calls => { summary := "", cache := cache, calls := calls }
  | r :: rest, calls =>
    let summary := pyStrip r
    if sentenceParts summary < 4 then
      summarizeLoop cache text rest (calls + 1)
    else
      { summary := summary, cache := (text, summary) :: cache, calls := calls + 1 }

/-- Embeds `GroqSummarizer.summarize`: cache check, then the
generation/validation retry loop. -/
def summarize (cache : Cache) (responses : List String) (text : String) : SumResult :=
  match cacheLookup cache text with
  | some s => { summary := s, cache := cache, calls := 0 }
  | none => summarizeLoop cache text responses 0

/-- A `title-news` headline element of a listing page: its anchor elements,
each carrying an optional `href`. -/
structure Headline where
  anchors : List (Option String)
deriving Repr, DecidableEq

/-- The outcome of fetching and parsing one listing page: a fetch/parse
failure, or the list of headline elements found. -/
inductive Page where
  | fetchError : Page
  | ok : List Headline → Page
deriving Repr, DecidableEq

/-- The dedup filter applied to one extracted href
(`if not await self.db_manager.is_article_crawled(url)`); a missing href is
`None` in Python, which matches no row. -/
def crawledOpt (db : Store) : Option String → Bool
  | none => false
  | some u => is_article_crawled db u

/-- The body of the headline loop in `get_urls_of_type_thread`: take the
first anchor of each headline (`find_all("a")[0]` raises `IndexError` when
there is none, modelled as `Except.error`), read its href, and keep it when
the store does not already have it. -/
def collectUrls (db : Store) : List Headline → Except Unit (List (Option String))
  | [] => Except.ok []
  | h :: rest =>
    match h.anchors with
    | [] => Except.error ()
    | a :: _ =>
      match collectUrls db rest with
      | Except.error e => Except.error e
      | Except.ok tail =>
        if crawledOpt db a then Except.ok tail else Except.ok (a :: tail)

/-- Embeds `VNExpressCrawler.get_urls_of_type_thread`: a fetch/parse failure is
caught and yields `[]`; zero headlines yields `[]` (logged as normal end of
content); an exception inside the loop is caught by the same handler and
yields `[]`; otherwise the deduplicated href list. -/
def get_urls_of_type_thread (db : Store) (page : Page) : List (Option String) :=
  match page with
  | Page.fetchError => []
  | Page.ok titles =>
    if titles.isEmpty then []
    else
      match collectUrls db titles with
      | Except.error _ => []
      | Except.ok urls => urls

/-- The oracles for the external collaborators: `ext` is
`extract_content` (None when the page lacks a `title-detail` element or the
fetch raises, otherwise the stripped title, description and joined
paragraphs); `resp` gives the successive responses of the generation service
for a given content; `pubOk` says whether the Telegram send for a URL
succeeds; `now` is the `datetime.now()` stamp. -/
structure Env where
  ext : String → Option (String × String × String)
  resp : String → List String
  pubOk : String → Bool
  now : String

/-- Embeds `VNExpressCrawler.process_article`: skip (return None) unless the title
is truthy and the description or the paragraphs are; otherwise build the
article dict with `content = f"{description}\n{paragraphs}"`. -/
def process_article (extraction : Option (String × String × String))
    (url category published_date : String) : Option Article :=
  match extraction with
  | none => none
  | some (title, description, paragraphs) =>
    if title ≠ "" ∧ (description ≠ "" ∨ paragraphs ≠ "") then
      some { title := title, content := description ++ "\n" ++ paragraphs,
             url := url, category := category, published_date := published_date }
    else none

/-- One `process_article` task for one discovered href; a missing href makes
`extract_content` raise on `session.get(None)`, which collapses to None. -/
def processUrl (env : Env) (category : String) : Option String → Option Article
  | none => none
  | some url => process_article (env.ext url) url category env.now

/-- Embeds `VNExpressCrawler.get_latest_articles`: per page, discover hrefs and
process them; concatenate the pages and drop the None results. -/
def get_latest_articles (db : Store) (env : Env) (category : String)
    (pages : List Page) : List Article :=
  (pages.map (fun pg =>
    (get_urls_of_type_thread db pg).filterMap (processUrl env category))).flatten

/-- Observable events of a run: every publish attempt with whether the send
succeeded, every URL passed to `insert_article`, and the number of
generation-service calls. -/
structure CycleLog where
  publishAttempts : List (String × Bool)
  inserts : List String
  sumCalls : Nat
deriving Repr, DecidableEq

/-- The mutable state threaded through the orchestrator: the store, the
summarizer cache, and the event log. -/
structure CState where
  db : Store
  cache : Cache
  log : CycleLog
deriving Repr, DecidableEq

/-- Embeds `TelegramPoster.post_update`: attempts the send; a failure is caught and
logged inside the method, so the caller observes a normal return either
way.  The attempt and its outcome are recorded. -/
def post_update (sendOk : Bool) (log : CycleLog) (url : String) : CycleLog :=
  { log with publishAttempts := log.publishAttempts ++ [(url, sendOk)] }

/-- The per-article body of the loop in `process_articles`: guard on truthy
content, summarize, and on a truthy summary publish then persist. -/
def processOne (env : Env) (st : CState) (a : Article) : CState :=
  if a.content ≠ "" then
    let r := summarize st.cache (env.resp a.content) a.content
    let log1 : CycleLog := { st.log with sumCalls := st.log.sumCalls + r.calls }
    if r.summary ≠ "" then
      let log2 := post_update (env.pubOk a.url) log1 a.url
      { db := insert_article st.db a env.now r.summary,
        cache := r.cache,
        log := { log2 with inserts := log2.inserts ++ [a.url] } }
    else
      { st with cache := r.cache, log := log1 }
  else st

/-- One configured category with its (pre-fetched) listing pages. -/
structure Category where
  name : String
  pages : List Page
deriving Repr, DecidableEq

/-- One category pass of `process_articles`: gather the articles of the
category, then process each in order. -/
def processCategory (env : Env) (st : CState) (c : Category) : CState :=
  (get_latest_articles st.db env c.name c.pages).foldl (processOne env) st

/-- One full cycle of `process_articles` over the configured categories. -/
def process_articles (env : Env) (st : CState) (cats : List Category) : CState :=
  cats.foldl (processCategory env) st

/-- Store invariant of spec section 3: every persisted row has a non-empty
summary. -/
def storeOk (db : Store) : Prop := ∀ r ∈ db, r.summary ≠ ""

/-- Cache invariant: every cached summary passed the validation gate. -/
def cacheOk (c : Cache) : Prop := ∀ p ∈ c, ¬ (sentenceParts p.2 < 4)

/-- The headline elements a listing page yields (none on fetch failure). -/
def headsOf : Page → List Headline
  | Page.fetchError => []
  | Page.ok ts => ts

/-- A headline whose target URL (the href of its first anchor, when
present) is already in the store. -/
def headSeen (db : Store) (h : Headline) : Bool :=
  match h.anchors.head? with
  | some (some s) => is_article_crawled db s
  | _ => true

/-- Every headline of every configured listing page targets an already-seen
URL (or has no resolvable target). -/
def allSeen (db : Store) (cats : List Category) : Prop :=
  ∀ c ∈ cats, ∀ pg ∈ c.pages, ∀ h ∈ headsOf pg, headSeen db h = true

/-- The empty orchestrator state: fresh store, fresh cache, empty log. -/
def st0 : CState :=
  { db := [], cache := [],
    log := { publishAttempts := [], inserts := [], sumCalls := 0 } }

/-- A one-article world: one URL that extracts successfully, a generation
service that answers with a 4-sentence summary, and a succeeding publisher. -/
def envA : Env :=
  { ext := fun u => if u == "https://e.vn/a1" then some ("T1", "D1", "P1") else none,
    resp := fun _ => ["S1. S2. S3. S4."],
    pubOk := fun _ => true,
    now := "2024-01-01 00:00:00" }

/-- The same world with a failing publisher send. -/
def envFailPub : Env :=
  { envA with pubOk := fun _ => false }

/-- One category whose single listing page carries one headline for the one
article of `envA`. -/
def catsA : List Category :=
  [{ name := "tin-nong",
     pages := [Page.ok [{ anchors := [some "https://e.vn/a1"] }]] }]

/-- The article dict that `process_article` builds for the one URL of
`envA`. -/
def artA : Article :=
  { title := "T1", content := "D1" ++ "\n" ++ "P1", url := "https://e.vn/a1",
    category := "tin-nong", published_date := "2024-01-01 00:00:00" }

/-- A world whose one URL extracts to a title with empty description and
empty paragraphs. -/
def envBad : Env :=
  { ext := fun u => if u == "https://e.vn/empty" then some ("T2", "", "") else none,
    resp := fun _ => ["S1. S2. S3. S4."],
    pubOk := fun _ => true,
    now := "2024-01-01 00:00:00" }

/-- A fold preserves any invariant preserved by each step. -/
theorem foldl_preserve {α β : Type} (P : α → Prop) (f : α → β → α)
    (h : ∀ s b, P s → P (f s b)) :
    ∀ (l : List β) (s : α), P s → P (l.foldl f s)
  | [], _, hs => hs
  | b :: l, s, hs => foldl_preserve P f h l (f s b) (h s b hs)

/-- Inserting a row with a non-empty summary preserves the store invariant. -/
theorem storeOk_insert_row (db : Store) (a : Article) (cd summary : String)
    (hdb : storeOk db) (hs : summary ≠ "") :
    storeOk (insert_article db a cd summary) := by
  intro r hr
  rcases List.mem_cons.mp hr with h | h
  · subst h; exact hs
  · exact hdb r (List.mem_of_mem_filter h)

/-- The per-article step preserves the store invariant: persistence happens
only behind the non-empty-summary guard. -/
theorem storeOk_processOne (env : Env) (st : CState) (a : Article)
    (h : storeOk st.db) : storeOk (processOne env st a).db := by
  unfold processOne
  by_cases hc : a.content ≠ ""
  · simp only [if_pos hc]
    by_cases hs : (summarize st.cache (env.resp a.content) a.content).summary ≠ ""
    · simp only [if_pos hs]
      exact storeOk_insert_row st.db a env.now _ h hs
    · simp only [if_neg hs]
      exact h
  · simp only [if_neg hc]
    exact h

/-- One category pass preserves the store invariant. -/
theorem storeOk_processCategory (env : Env) (st : CState) (c : Category)
    (h : storeOk st.db) : storeOk (processCategory env st c).db := by
  unfold processCategory
  exact foldl_preserve (fun s => storeOk s.db) (processOne env)
    (fun s a => storeOk_processOne env s a) _ st h

/-- Claim C4: every persisted row has a non-empty summary.  The orchestrator
calls `insert_article` only inside the `if summary:` guard, so any cycle run
started from a store satisfying the invariant ends in a store satisfying it;
no reachable store state contains a row with an empty summary. -/
theorem C4_store_invariant (env : Env) (st : CState) (cats : List Category)
    (h : storeOk st.db) : storeOk (process_articles env st cats).db := by
  unfold process_articles
  exact foldl_preserve (fun s => storeOk s.db) (processCategory env)
    (fun s c => storeOk_processCategory env s c) cats st h

/-- Witness for C4: the fresh store satisfies the invariant and so does the
store after a concrete successful cycle. -/
theorem C4_store_invariant_witness :
    storeOk st0.db ∧ storeOk (process_articles envA st0 catsA).db :=
  ⟨by simp [storeOk, st0],
   C4_store_invariant envA st0 catsA (by simp [storeOk, st0])⟩

/-- Claim C9: every article dict built by `process_article` has a non-empty
content string: content is description, a newline, and the paragraphs, so
it always holds at least the newline; hence the orchestrator guard
`if article["content"]` is true for every returned article. -/
theorem C9_content_nonempty (extraction : Option (String × String × String))
    (url category published_date : String) (a : Article)
    (h : process_article extraction url category published_date = some a) :
    a.content ≠ "" := by
  match extraction with
  | none => simp [process_article] at h
  | some (t, d, p) =>
    simp only [process_article] at h
    split at h
    · cases h
      intro hcontent
      have hlen := congrArg String.length hcontent
      simp [String.length_append, show ("\n" : String).length = 1 from rfl] at hlen
    · cases h

/-- Witness for C9: a concrete extraction whose article has non-empty
content. -/
theorem C9_content_nonempty_witness :
    process_article (some ("T1", "D1", "P1")) "https://e.vn/a1" "tin-nong"
      "2024-01-01 00:00:00" = some artA ∧ artA.content ≠ "" :=
  ⟨by decide,
   C9_content_nonempty (some ("T1", "D1", "P1")) "https://e.vn/a1" "tin-nong"
     "2024-01-01 00:00:00" artA (by decide)⟩

/-- Claim C7: a URL whose extraction yields no title, an empty title, or a
title with both an empty description and empty paragraphs is skipped:
`process_article` returns none, the article list for that URL is empty, and
the orchestrator state (summarizer-call count, publish attempts, store) is
untouched — the Summarizer is never invoked for it. -/
theorem C7_empty_content_skip (env : Env) (st : CState) (category url : String)
    (h : env.ext url = none ∨
      ∃ t d p, env.ext url = some (t, d, p) ∧ (t = "" ∨ (d = "" ∧ p = ""))) :
    processUrl env category (some url) = none ∧
    ([some url].filterMap (processUrl env category)).foldl (processOne env) st = st := by
  have hnone : processUrl env category (some url) = none := by
    rcases h with h | ⟨t, d, p, hext, hcase⟩
    · simp [processUrl, h, process_article]
    · rcases hcase with ht | ⟨hd, hp⟩
      · simp [processUrl, hext, process_article, ht]
      · simp [processUrl, hext, process_article, hd, hp]
  refine ⟨hnone, ?_⟩
  simp [List.filterMap, hnone, List.foldl]

/-- Witness for C7: the one URL of `envBad` extracts to a title with empty
description and paragraphs, and processing it leaves the state unchanged. -/
theorem C7_empty_content_skip_witness :
    (envBad.ext "https://e.vn/empty" = none ∨
      ∃ t d p, envBad.ext "https://e.vn/empty" = some (t, d, p) ∧
        (t = "" ∨ (d = "" ∧ p = ""))) ∧
    processUrl envBad "tin-nong" (some "https://e.vn/empty") = none ∧
    ([some "https://e.vn/empty"].filterMap
      (processUrl envBad "tin-nong")).foldl (processOne envBad) st0 = st0 :=
  ⟨Or.inr ⟨"T2", "", "", by decide, Or.inr ⟨rfl, rfl⟩⟩,
   C7_empty_content_skip envBad st0 "tin-nong" "https://e.vn/empty"
     (Or.inr ⟨"T2", "", "", by decide, Or.inr ⟨rfl, rfl⟩⟩)⟩

/-- Claim C8: the listing discoverer is total and degrades to the empty
list: a fetch/parse failure yields `[]`, a page with zero headline elements
yields `[]`, and an exception inside the headline loop (a headline with no
anchor) is caught and yields `[]` as well. -/
theorem C8_listing_totality (db : Store) (ts : List Headline) :
    get_urls_of_type_thread db Page.fetchError = [] ∧
    get_urls_of_type_thread db (Page.ok []) = [] ∧
    (collectUrls db ts = Except.error () →
      get_urls_of_type_thread db (Page.ok ts) = []) := by
  refine ⟨rfl, rfl, ?_⟩
  intro herr
  unfold get_urls_of_type_thread
  cases ts with
  | nil => rfl
  | cons hd rest => simp [herr]

/-- Witness for C8: a page whose single headline has no anchor makes the
loop body raise, and the discoverer returns the empty list. -/
theorem C8_listing_totality_witness :
    collectUrls [] [{ anchors := [] }] = Except.error () ∧
    get_urls_of_type_thread [] (Page.ok [{ anchors := [] }]) = [] :=
  ⟨rfl, (C8_listing_totality [] [{ anchors := [] }]).2.2 rfl⟩

/-- An accepted retry-loop result was written to the cache under the
content key. -/
theorem summarizeLoop_accepted_cached (text : String) :
    ∀ (rs : List String) (c : Cache) (n : Nat),
      ¬ sentenceParts (summarizeLoop c text rs n).summary < 4 →
      cacheLookup (summarizeLoop c text rs n).cache text =
        some (summarizeLoop c text rs n).summary := by
  intro rs
  induction rs with
  | nil =>
    intro c n hacc
    have hval : (summarizeLoop c text [] n).summary = "" := rfl
    rw [hval] at hacc
    exact absurd (by decide : sentenceParts "" < 4) hacc
  | cons r rest ih =>
    intro c n hacc
    by_cases hg : sentenceParts (pyStrip r) < 4
    · simp only [summarizeLoop, if_pos hg] at hacc ⊢
      exact ih c (n + 1) hacc
    · simp only [summarizeLoop, if_neg hg]
      simp [cacheLookup]

/-- The retry loop never decreases the running call count. -/
theorem summarizeLoop_calls_ge (text : String) :
    ∀ (rs : List String) (c : Cache) (n : Nat),
      n ≤ (summarizeLoop c text rs n).calls := by
  intro rs
  induction rs with
  | nil => intro c n; exact Nat.le_refl n
  | cons r rest ih =>
    intro c n
    by_cases hg : sentenceParts (pyStrip r) < 4
    · simp only [summarizeLoop, if_pos hg]
      exact Nat.le_trans (Nat.le_succ n) (ih c (n + 1))
    · simp only [summarizeLoop, if_neg hg]
      exact Nat.le_succ n

/-- A retry loop that ends in the empty string (the service-error fallback)
leaves the cache untouched. -/
theorem summarizeLoop_empty_cache (text : String) :
    ∀ (rs : List String) (c : Cache) (n : Nat),
      (summarizeLoop c text rs n).summary = "" →
      (summarizeLoop c text rs n).cache = c := by
  intro rs
  induction rs with
  | nil => intro c n _; rfl
  | cons r rest ih =>
    intro c n hempty
    by_cases hg : sentenceParts (pyStrip r) < 4
    · simp only [summarizeLoop, if_pos hg] at hempty ⊢
      exact ih c (n + 1) hempty
    · simp only [summarizeLoop, if_neg hg] at hempty
      rw [hempty] at hg
      exact absurd (by decide : sentenceParts "" < 4) hg

/-- The retry loop only writes gate-passing summaries to the cache. -/
theorem summarizeLoop_cacheOk (text : String) :
    ∀ (rs : List String) (c : Cache) (n : Nat),
      cacheOk c → cacheOk (summarizeLoop c text rs n).cache := by
  intro rs
  induction rs with
  | nil => intro c n hc; exact hc
  | cons r rest ih =>
    intro c n hc
    by_cases hg : sentenceParts (pyStrip r) < 4
    · simp only [summarizeLoop, if_pos hg]
      exact ih c (n + 1) hc
    · simp only [summarizeLoop, if_neg hg]
      intro p hp
      rcases List.mem_cons.mp hp with h | h
      · subst h; exact hg
      · exact hc p h

/-- A cache hit returns the cached value with no service call. -/
theorem summarize_hit (c : Cache) (rs : List String) (text s : String)
    (h : cacheLookup c text = some s) :
    summarize c rs text = { summary := s, cache := c, calls := 0 } := by
  unfold summarize
  rw [h]

/-- Claim C2: the validation gate.  On a cache miss, a generated result
whose sentence count (Python `len(result.split("."))`) is below 4 is
rejected and the service retried; with a stub answering a too-short string
then a passing one, `summarize` returns the second (stripped) response,
caches it, and consumed exactly two service calls. -/
theorem C2_validation_gate (c : Cache) (text r1 r2 : String)
    (hmiss : cacheLookup c text = none)
    (h1 : sentenceParts (pyStrip r1) < 4)
    (h2 : ¬ sentenceParts (pyStrip r2) < 4) :
    summarize c [r1, r2] text =
      { summary := pyStrip r2, cache := (text, pyStrip r2) :: c, calls := 2 } := by
  unfold summarize
  rw [hmiss]
  simp only [summarizeLoop, if_pos h1, if_neg h2]

/-- Witness for C2: a 2-sentence response is rejected, a 5-sentence
response is accepted, and the service was called exactly twice. -/
theorem C2_validation_gate_witness :
    cacheLookup [] "bai bao" = none ∧
    sentenceParts (pyStrip "Cau mot. Cau hai.") < 4 ∧
    ¬ sentenceParts (pyStrip "Mot. Hai. Ba. Bon. Nam.") < 4 ∧
    summarize [] ["Cau mot. Cau hai.", "Mot. Hai. Ba. Bon. Nam."] "bai bao" =
      { summary := pyStrip "Mot. Hai. Ba. Bon. Nam.",
        cache := [("bai bao", pyStrip "Mot. Hai. Ba. Bon. Nam.")], calls := 2 } :=
  ⟨rfl, by decide, by decide,
   C2_validation_gate [] "bai bao" "Cau mot. Cau hai." "Mot. Hai. Ba. Bon. Nam."
     rfl (by decide) (by decide)⟩

/-- The retry loop consumes every response of a run of rejected ones and
keeps going: after `n` too-short responses it has made `n` more calls and
still holds no summary. -/
theorem summarizeLoop_replicate (text r : String)
    (hshort : sentenceParts (pyStrip r) < 4) :
    ∀ (n k : Nat) (c : Cache),
      summarizeLoop c text (List.replicate n r) k =
        { summary := "", cache := c, calls := k + n } := by
  intro n
  induction n with
  | zero => intro k c; rfl
  | succ m ih =>
    intro k c
    simp only [List.replicate, summarizeLoop, if_pos hshort, ih (k + 1) c]
    congr 1
    omega

/-- Claim C3 (the code side of the latent bug): the reject-and-retry loop
in `summarize` imposes no attempt cap.  For every `n`, a service that
answers `n` consecutive too-short summaries is called all `n` times — the
attempt count equals however long the service keeps answering short, so no
bound independent of the service exists, and the loop in the source is
literally `return await self.summarize(text)` with no counter. -/
theorem C3_unbounded_retry (c : Cache) (text r : String) (n : Nat)
    (hmiss : cacheLookup c text = none)
    (hshort : sentenceParts (pyStrip r) < 4) :
    summarize c (List.replicate n r) text =
      { summary := "", cache := c, calls := n } := by
  unfold summarize
  rw [hmiss]
  have h := summarizeLoop_replicate text r hshort n 0 c
  simpa using h

/-- Witness for C3: three consecutive 1-sentence answers yield three
service calls and still no accepted summary. -/
theorem C3_unbounded_retry_witness :
    cacheLookup [] "t" = none ∧
    sentenceParts (pyStrip "Ngan.") < 4 ∧
    summarize [] (List.replicate 3 "Ngan.") "t" =
      { summary := "", cache := [], calls := 3 } :=
  ⟨rfl, by decide, C3_unbounded_retry [] "t" "Ngan." 3 rfl (by decide)⟩

/-- Claim C6: summary memoization.  If a first `summarize` call ended in an
accepted (gate-passing) summary, a second call with the exact same content
returns that summary from the cache with zero generation-service calls. -/
theorem C6_cache_hit (c : Cache) (rs rs2 : List String) (text : String)
    (hacc : ¬ sentenceParts (summarize c rs text).summary < 4) :
    summarize (summarize c rs text).cache rs2 text =
      { summary := (summarize c rs text).summary,
        cache := (summarize c rs text).cache, calls := 0 } := by
  have hkey : cacheLookup (summarize c rs text).cache text =
      some (summarize c rs text).summary := by
    unfold summarize at hacc ⊢
    cases hc : cacheLookup c text with
    | some s => exact hc
    | none =>
      rw [hc] at hacc
      exact summarizeLoop_accepted_cached text rs c 0 hacc
  exact summarize_hit _ rs2 text _ hkey

/-- Witness for C6: after one accepted summary, an identical call is served
from the cache with zero service calls. -/
theorem C6_cache_hit_witness :
    ¬ sentenceParts (summarize [] ["A. B. C. D."] "t").summary < 4 ∧
    summarize (summarize [] ["A. B. C. D."] "t").cache ["E. F. G. H."] "t" =
      { summary := (summarize [] ["A. B. C. D."] "t").summary,
        cache := (summarize [] ["A. B. C. D."] "t").cache, calls := 0 } :=
  ⟨by decide, C6_cache_hit [] ["A. B. C. D."] ["E. F. G. H."] "t" (by decide)⟩

/-- Claim C10: the cache stores only gate-passing summaries, and the empty
string returned on a generation-service failure is never cached — so a
later call with the same content consults the service again (at least one
call) instead of returning a cached failure. -/
theorem C10_no_failure_caching (c : Cache) (rs rs2 : List String) (text : String) :
    (cacheOk c → cacheOk (summarize c rs text).cache) ∧
    (cacheLookup c text = none → (summarize c rs text).summary = "" →
      (summarize c rs text).cache = c ∧
      (rs2 ≠ [] → 1 ≤ (summarize c rs2 text).calls)) := by
  constructor
  · intro hc
    unfold summarize
    cases hl : cacheLookup c text with
    | some s => exact hc
    | none => exact summarizeLoop_cacheOk text rs c 0 hc
  · intro hmiss hempty
    unfold summarize at hempty ⊢
    rw [hmiss] at hempty ⊢
    constructor
    · exact summarizeLoop_empty_cache text rs c 0 hempty
    · intro hne
      cases rs2 with
      | nil => exact absurd rfl hne
      | cons r rest =>
        by_cases hg : sentenceParts (pyStrip r) < 4
        · simp only [summarizeLoop, if_pos hg]
          exact Nat.le_trans (Nat.le_refl 1) (summarizeLoop_calls_ge text rest c 1)
        · simp only [summarizeLoop, if_neg hg]
          exact Nat.le_refl 1

/-- Witness for C10: an immediate service failure caches nothing, and the
next call with the same content reaches the service. -/
theorem C10_no_failure_caching_witness :
    cacheOk ([] : Cache) ∧ cacheOk (summarize [] [] "t").cache ∧
    cacheLookup [] "t" = none ∧ (summarize [] [] "t").summary = "" ∧
    (summarize [] [] "t").cache = [] ∧
    1 ≤ (summarize [] ["X. Y. Z. W."] "t").calls :=
  ⟨by simp [cacheOk],
   (C10_no_failure_caching [] [] ["X. Y. Z. W."] "t").1 (by simp [cacheOk]),
   rfl, rfl,
   ((C10_no_failure_caching [] [] ["X. Y. Z. W."] "t").2 rfl rfl).1,
   ((C10_no_failure_caching [] [] ["X. Y. Z. W."] "t").2 rfl rfl).2 (by decide)⟩

/-- Counterexample to claim C1: in a concrete cycle where the one Telegram
send fails, the orchestrator still calls `insert_article` and the store
ends up holding the record — the only publish attempt for the URL failed,
yet a persisted record exists, contradicting "the store holds a record for
a URL only if a publish call for that URL succeeded first". -/
theorem C1_publish_failure_counterexample :
    is_article_crawled (process_articles envFailPub st0 catsA).db
      "https://e.vn/a1" = true ∧
    (process_articles envFailPub st0 catsA).log.inserts = ["https://e.vn/a1"] ∧
    (process_articles envFailPub st0 catsA).log.publishAttempts =
      [("https://e.vn/a1", false)] := by
  decide

/-- Claim C1 as amended: `post_update` catches a publish failure internally
and returns normally, so whenever the summary guard passes the orchestrator
records a publish attempt with whatever outcome the send had and calls
`insert_article` regardless — persistence is guarded only by the non-empty
summary, and the publisher oracle (hence publish success or failure) is
arbitrary here. -/
theorem C1_persist_regardless_of_publish (env : Env) (st : CState) (a : Article)
    (hc : a.content ≠ "")
    (hs : (summarize st.cache (env.resp a.content) a.content).summary ≠ "") :
    (processOne env st a).db =
      insert_article st.db a env.now
        (summarize st.cache (env.resp a.content) a.content).summary ∧
    is_article_crawled (processOne env st a).db a.url = true ∧
    (processOne env st a).log.inserts = st.log.inserts ++ [a.url] ∧
    (processOne env st a).log.publishAttempts =
      st.log.publishAttempts ++ [(a.url, env.pubOk a.url)] := by
  simp [processOne, hc, hs, insert_article, is_article_crawled, post_update]

/-- Witness for the amended C1: with the failing publisher, the article is
still persisted and the single publish attempt is a failure. -/
theorem C1_persist_regardless_of_publish_witness :
    artA.content ≠ "" ∧
    (summarize st0.cache (envFailPub.resp artA.content) artA.content).summary ≠ "" ∧
    is_article_crawled (processOne envFailPub st0 artA).db artA.url = true ∧
    (processOne envFailPub st0 artA).log.inserts = st0.log.inserts ++ [artA.url] ∧
    (processOne envFailPub st0 artA).log.publishAttempts =
      st0.log.publishAttempts ++ [(artA.url, envFailPub.pubOk artA.url)] :=
  ⟨by decide, by decide,
   (C1_persist_regardless_of_publish envFailPub st0 artA (by decide) (by decide)).2.1,
   (C1_persist_regardless_of_publish envFailPub st0 artA (by decide) (by decide)).2.2.1,
   (C1_persist_regardless_of_publish envFailPub st0 artA (by decide) (by decide)).2.2.2⟩

/-- When every headline of a page targets an already-seen URL, the headline
loop keeps only hrefs that are missing (`None` in Python). -/
theorem collectUrls_seen (db : Store) :
    ∀ (ts : List Headline), (∀ hl ∈ ts, headSeen db hl = true) →
      ∀ (urls : List (Option String)), collectUrls db ts = Except.ok urls →
        ∀ u ∈ urls, u = none := by
  intro ts
  induction ts with
  | nil =>
    intro _ urls hok u hu
    simp only [collectUrls] at hok
    cases hok
    cases hu
  | cons hd rest ih =>
    intro hall urls hok u hu
    simp only [collectUrls] at hok
    split at hok
    · cases hok
    · rename_i a as ha
      split at hok
      · cases hok
      · rename_i tail hrec
        have htail : ∀ v ∈ tail, v = none :=
          ih (fun hl hm => hall hl (List.mem_cons_of_mem _ hm)) tail hrec
        by_cases hcr : crawledOpt db a = true
        · rw [if_pos hcr] at hok
          cases hok
          exact htail u hu
        · have hanone : a = none := by
            cases a with
            | none => rfl
            | some s =>
              have hseen := hall hd (List.mem_cons_self _ _)
              simp [headSeen, ha] at hseen
              exact absurd hseen (by simpa [crawledOpt] using hcr)
          rw [if_neg hcr] at hok
          cases hok
          rcases List.mem_cons.mp hu with h | h
          · rw [h, hanone]
          · exact htail u h

/-- When every headline of a page targets an already-seen URL, the
discoverer yields no resolvable URL. -/
theorem get_urls_seen (db : Store) (pg : Page)
    (hall : ∀ hl ∈ headsOf pg, headSeen db hl = true) :
    ∀ u ∈ get_urls_of_type_thread db pg, u = none := by
  cases pg with
  | fetchError => intro u hu; exact absurd hu (List.not_mem_nil u)
  | ok ts =>
    intro u hu
    simp only [get_urls_of_type_thread] at hu
    by_cases he : ts.isEmpty = true
    · rw [if_pos he] at hu
      exact absurd hu (List.not_mem_nil u)
    · rw [if_neg he] at hu
      cases hc : collectUrls db ts with
      | error e =>
        rw [hc] at hu
        exact absurd hu (List.not_mem_nil u)
      | ok urls =>
        rw [hc] at hu
        exact collectUrls_seen db ts hall urls hc u hu

/-- A URL list with no resolvable URL yields no article. -/
theorem filterMap_skips (env : Env) (category : String) :
    ∀ (l : List (Option String)), (∀ u ∈ l, u = none) →
      l.filterMap (processUrl env category) = [] := by
  intro l
  induction l with
  | nil => intro _; rfl
  | cons u rest ih =>
    intro hall
    have hu : u = none := hall u (List.mem_cons_self _ _)
    subst hu
    simp only [List.filterMap_cons, processUrl]
    exact ih (fun v hv => hall v (List.mem_cons_of_mem _ hv))

/-- When every configured headline targets an already-seen URL, the article
list of a category is empty. -/
theorem get_latest_articles_seen (db : Store) (env : Env) (category : String) :
    ∀ (pages : List Page),
      (∀ pg ∈ pages, ∀ hl ∈ headsOf pg, headSeen db hl = true) →
      get_latest_articles db env category pages = [] := by
  intro pages
  induction pages with
  | nil => intro _; rfl
  | cons pg rest ih =>
    intro hall
    unfold get_latest_articles
    simp only [List.map_cons, List.flatten_cons]
    rw [filterMap_skips env category _
      (get_urls_seen db pg (hall pg (List.mem_cons_self _ _)))]
    rw [List.nil_append]
    have hrest := ih (fun q hq => hall q (List.mem_cons_of_mem _ hq))
    unfold get_latest_articles at hrest
    exact hrest

/-- A category pass over fully-seen listings leaves the state unchanged. -/
theorem processCategory_seen (env : Env) (st : CState) (c : Category)
    (hall : ∀ pg ∈ c.pages, ∀ hl ∈ headsOf pg, headSeen st.db hl = true) :
    processCategory env st c = st := by
  unfold processCategory
  rw [get_latest_articles_seen st.db env c.name c.pages hall]
  rfl

/-- A full cycle over listings whose headlines are all already seen is the
identity on the orchestrator state. -/
theorem process_articles_seen (env : Env) :
    ∀ (cats : List Category) (st : CState), allSeen st.db cats →
      process_articles env st cats = st := by
  intro cats
  induction cats with
  | nil => intro st _; rfl
  | cons c rest ih =>
    intro st hall
    unfold allSeen at hall
    unfold process_articles
    simp only [List.foldl_cons]
    rw [processCategory_seen env st c (hall c (List.mem_cons_self _ _))]
    have hrest := ih st (fun q hq => hall q (List.mem_cons_of_mem _ hq))
    unfold process_articles at hrest
    exact hrest

/-- Claim C5: cycle idempotence.  If after one full cycle every headline of
the unchanged listing targets a URL that is in the store, a second full
cycle is the identity on the state: the store, the insert log and the
publish-attempt log are all unchanged — zero new persisted records and
zero publish calls, because the discoverer yields a URL only when
`is_article_crawled` is false. -/
theorem C5_second_cycle_noop (env : Env) (s : CState) (cats : List Category)
    (hall : allSeen (process_articles env s cats).db cats) :
    process_articles env (process_articles env s cats) cats =
      process_articles env s cats :=
  process_articles_seen env cats (process_articles env s cats) hall

/-- Witness for C5: in the concrete one-article world the first cycle
persists the URL, and the second cycle changes nothing. -/
theorem C5_second_cycle_noop_witness :
    allSeen (process_articles envA st0 catsA).db catsA ∧
    process_articles envA (process_articles envA st0 catsA) catsA =
      process_articles envA st0 catsA :=
  ⟨by unfold allSeen; decide,
   C5_second_cycle_noop envA st0 catsA (by unfold allSeen; decide)⟩

end VNExpress
